import Mathlib

/-!
Verification development for the evaluation & scoring pipeline of the
LLM-Localization repository (backend/app/services).  The Python services are
shallowly embedded as executable Lean definitions:

* `models/__init__.py`          → `Severity`, `MacroClass`, `Citation`, `Rule`,
                                  `Finding`, `ScoreBreakdown`, `FeedbackEvent`, …
* `deterministic_validators.py` → `run_all_checks` and the five checks
* `evaluation_engine.py`        → `calculate_score`, `get_macro_class_from_finding`,
                                  `evaluate` (external calls are explicit
                                  `Except`/function parameters)
* `review_service.py`           → `recalculate_score`, `determine_macro_class`,
                                  `process_override`
* `embedding_service.py`        → `hybrid_search` (cosine similarity over the
                                  persisted embeddings is an abstract parameter;
                                  the claims here never depend on its value)

Python `dict`s keyed by strings are modelled as insertion-ordered association
lists, Python sets of strings as first-occurrence-deduplicated lists, Python
ints as `Int` (floor division `//` as `Int.fdiv`), and Python string hashing —
which is salted per interpreter process — as an explicit function parameter
`pyHash : String → Int`.
-/

set_option linter.unusedVariables false

namespace LocQA

/-- `class Severity(str, Enum)` from `models/__init__.py`. -/
inductive Severity where
  | minor
  | major
  | critical
deriving DecidableEq, Repr

/-- `.value` of the `Severity` enum. -/
def Severity.value : Severity → String
  | .minor => "Minor"
  | .major => "Major"
  | .critical => "Critical"

/-- `class MacroClass(str, Enum)` from `models/__init__.py`. -/
inductive MacroClass where
  | terminology
  | punctuation
  | mechanics
  | standards
  | style
  | accuracy
  | legal
deriving DecidableEq, Repr

/-- `.value` of the `MacroClass` enum. -/
def MacroClass.value : MacroClass → String
  | .terminology => "Terminology"
  | .punctuation => "Punctuation"
  | .mechanics => "Mechanics"
  | .standards => "Standards"
  | .style => "Style"
  | .accuracy => "Accuracy"
  | .legal => "Legal"

/-- `class Citation(BaseModel)` from `models/__init__.py`. -/
structure Citation where
  section_path : List String
  page_number : Option Int := none
  document_name : Option String := none
deriving DecidableEq, Repr

/-- `class Rule(BaseModel)` from `models/__init__.py` (the `created_at`
timestamp carries no behaviour and is omitted). -/
structure Rule where
  rule_id : String
  macro_class : MacroClass
  micro_class : String
  rule_text : String
  examples_pos : List String := []
  examples_neg : List String := []
  default_severity : Severity
  default_weight : Int
  citation : Citation
  regex_ready : Bool := false
  regex_pattern : Option String := none
deriving DecidableEq, Repr

/-- `class Finding(BaseModel)` from `models/__init__.py`, extended with the
`dismissed`/`accepted` keys that `review_service.py` adds to the persisted
JSON dict (`finding.get('dismissed', False)` reads `false` when the key is
absent, which the default captures). -/
structure Finding where
  segment_id : String
  rule_id : String
  severity : Severity
  penalty : Int
  justification : String
  citation : Citation
  deterministic : Bool
  span_start : Option Int := none
  span_end : Option Int := none
  highlighted_text : Option String := none
  dismissed : Bool := false
  accepted : Bool := false
deriving DecidableEq, Repr

/-- `class ScoreBreakdown(BaseModel)`: one value of the `by_macro_map` dict. -/
structure ScoreBreakdown where
  penalty : Int
  count : Int
  rules_triggered : List String
deriving DecidableEq, Repr

/-- The `by_macro_map` dict (macro-class name → breakdown), modelled as an
insertion-ordered association list exactly as CPython dicts iterate. -/
abbrev ByMacro := List (String × ScoreBreakdown)

/-- `class FeedbackAction(str, Enum)` from `models/__init__.py`. -/
inductive FeedbackAction where
  | accept
  | change_severity
  | reclassify
  | dismiss
deriving DecidableEq, Repr

/-- `class FeedbackEvent(BaseModel)` (timestamp omitted). -/
structure FeedbackEvent where
  event_id : String
  segment_id : String
  rule_id : String
  action : FeedbackAction
  old_value : String
  new_value : String
  reason : String
  actor : String
deriving DecidableEq, Repr

/-- `class ReviewOverrideRequest(BaseModel)` from `models/__init__.py`. -/
structure ReviewOverrideRequest where
  finding_id : String
  action : FeedbackAction
  new_severity : Option Severity := none
  reason : String
  reviewer : String
deriving DecidableEq, Repr

/-! ### String helpers (Python `in`, `str.split()`, …) -/

/-- `lead_match p s`: the char list `p` is an initial segment of `s`. -/
def lead_match : List Char → List Char → Bool
  | [], _ => true
  | _ :: _, [] => false
  | p :: ps, s :: ss => p = s && lead_match ps ss

/-- `has_sub p s`: the char list `p` occurs contiguously inside `s`. -/
def has_sub (p : List Char) : List Char → Bool
  | [] => lead_match p []
  | s :: ss => lead_match p (s :: ss) || has_sub p ss

/-- Python `pat in s` (substring test) for nonempty `pat`. -/
def str_contains (s pat : String) : Bool :=
  has_sub pat.data s.data

/-- Python `str.upper()` (ASCII, as in all rule ids handled here). -/
def py_upper (s : String) : String :=
  String.mk (s.data.map Char.toUpper)

/-- Python `str.lower()` (ASCII). -/
def py_lower (s : String) : String :=
  String.mk (s.data.map Char.toLower)

/-- Python `s.startswith(pre)`. -/
def py_startswith (s pre : String) : Bool :=
  lead_match pre.data s.data

/-- Python `s[:n]` (code points). -/
def py_take (s : String) (n : Nat) : String :=
  String.mk (s.data.take n)

/-- Python `str.split()` with no argument: split on whitespace runs,
discarding empty pieces. -/
def py_split_ws (s : String) : List String :=
  (s.split (fun c => c.isWhitespace)).filter (fun w => w ≠ "")

/-- Python set construction order: keep the first occurrence of each element. -/
def dedup_first : List String → List String :=
  go []
where
  go (seen : List String) : List String → List String
    | [] => []
    | x :: xs => if x ∈ seen then go seen xs else x :: go (x :: seen) xs

/-! ### `by_macro_map` dict operations -/

/-- `by_macro_map.get(k, {}).get('penalty', 0)`. -/
def bm_pen (bm : ByMacro) (k : String) : Int :=
  match bm with
  | [] => 0
  | (k', b) :: rest => if k' = k then b.penalty else bm_pen rest k

/-- One loop iteration on the `by_macro_map` dict: create the entry if absent,
then `penalty += p`, `count += 1`, `rules_triggered.append(rid)`. -/
def bm_add (bm : ByMacro) (k : String) (p : Int) (rid : String) : ByMacro :=
  match bm with
  | [] => [(k, ⟨p, 1, [rid]⟩)]
  | (k', b) :: rest =>
    if k' = k then
      (k', ⟨b.penalty + p, b.count + 1, b.rules_triggered ++ [rid]⟩) :: rest
    else
      (k', b) :: bm_add rest k p rid

/-- `if k in by_macro_map: by_macro_map[k]['penalty'] = min(by_macro_map[k]['penalty'], m)`
(dict keys are unique, so updating the first matching entry is the dict
assignment; a no-op when the key is absent). -/
def bm_clamp (bm : ByMacro) (k : String) (m : Int) : ByMacro :=
  match bm with
  | [] => []
  | (k', b) :: rest =>
    if k' = k then (k', { b with penalty := min b.penalty m }) :: rest
    else (k', b) :: bm_clamp rest k m

/-- Sum of the per-category penalties reported in `by_macro_map`. -/
def sum_bm (bm : ByMacro) : Int :=
  (bm.map (fun p => p.2.penalty)).sum

/-! ### `deterministic_validators.py` -/

/-- `self.zh_punctuation_map`.  The Python literal writes the ASCII double
quote key twice ("opening"/"closing" quote), both with the ASCII double quote
as value, so the dict collapses those to a single self-mapping entry. -/
def zh_punctuation_map : List (Char × Char) :=
  [('!', '！'), (',', '，'), (':', '：'), (';', '；'), ('?', '？'),
   ('"', '"'), ('(', '（'), (')', '）'), ('<', '《'), ('>', '》')]

/-- Code-point spans of every occurrence of `c` in `s`
(`re.finditer(re.escape(half_width), target_text)`). -/
def char_positions (c : Char) (s : String) : List (Nat × Nat) :=
  s.data.enum.filterMap (fun p => if p.2 = c then some (p.1, p.1 + 1) else none)

/-- The Finding built inside `_check_punctuation_width` for one occurrence. -/
def punct_finding (segment_id : String) (r : Rule) (half_width full_width : Char)
    (pos : Nat × Nat) : Finding :=
  { segment_id := segment_id
    rule_id := r.rule_id
    severity := r.default_severity
    penalty := r.default_weight * 2  -- the Major severity multiplier
    justification := "Half-width \x27" ++ String.singleton half_width ++
      "\x27 found; should use full-width \x27" ++ String.singleton full_width ++
      "\x27 in Chinese."
    citation := r.citation
    deterministic := true
    span_start := some (pos.1 : Int)
    span_end := some (pos.2 : Int)
    highlighted_text := some (String.singleton half_width) }

/-- `_check_punctuation_width`: locale-gated scan of the target for each
half-width mark; the matched rule supplies severity and weight. -/
def check_punctuation_width (source_text target_text locale segment_id : String)
    (rules : List Rule) : List Finding :=
  if locale ≠ "zh-CN" then [] else
  let punct_rules := rules.filter (fun r =>
    r.macro_class.value = "Punctuation" && str_contains (py_lower r.rule_text) "width")
  (zh_punctuation_map.map (fun e =>
    let positions := char_positions e.1 target_text
    if positions.isEmpty then [] else
      let matching_rule :=
        match punct_rules.find? (fun r =>
            str_contains r.rule_text (String.singleton e.1) ||
            str_contains r.rule_text (String.singleton e.2)) with
        | some r => some r
        | none => punct_rules.head?  -- first punctuation rule as fallback
      match matching_rule with
      | some r => positions.map (punct_finding segment_id r e.1 e.2)
      | none => [])).flatten

/-- `self.placeholder_patterns` entry `\{[^}]*\}` (and the `[...]`/`<...>`
variants): leftmost non-overlapping matches of open-char, any chars other
than the close-char, close-char. -/
def scan_delim (openC closeC : Char) (cs : List Char) : List String :=
  go none cs
where
  go : Option (List Char) → List Char → List String
    | _, [] => []
    | none, c :: cs => if c = openC then go (some [c]) cs else go none cs
    | some buf, c :: cs =>
        if c = closeC then String.mk (buf ++ [c]) :: go none cs
        else go (some (buf ++ [c])) cs

/-- Pattern `%[sd]`. -/
def scan_percent_sd : List Char → List String
  | [] => []
  | '%' :: c :: cs =>
      if c = 's' ∨ c = 'd' then ("%" ++ String.singleton c) :: scan_percent_sd cs
      else scan_percent_sd (c :: cs)
  | _ :: cs => scan_percent_sd cs

/-- Python `\w` (ASCII range; all inputs considered here are ASCII). -/
def is_word_char (c : Char) : Bool := c.isAlphanum || c = '_'

/-- Pattern `%\(\w+\)[sd]` (fuel = input length bounds the scan steps). -/
def scan_percent_named_go : Nat → List Char → List String
  | 0, _ => []
  | _ + 1, [] => []
  | fuel + 1, '%' :: '(' :: cs =>
      let name := cs.takeWhile is_word_char
      let rest := cs.dropWhile is_word_char
      (match name, rest with
      | _ :: _, ')' :: k :: rest2 =>
        if k = 's' ∨ k = 'd' then
          ("%(" ++ String.mk name ++ ")" ++ String.singleton k) ::
            scan_percent_named_go fuel rest2
        else scan_percent_named_go fuel ('(' :: cs)
      | _, _ => scan_percent_named_go fuel ('(' :: cs))
  | fuel + 1, _ :: cs => scan_percent_named_go fuel cs

/-- Pattern `%\(\w+\)[sd]`. -/
def scan_percent_named (cs : List Char) : List String :=
  scan_percent_named_go cs.length cs

/-- The set of placeholders of one text: union of the five patterns
(`set.update` per pattern), in first-occurrence order. -/
def extract_placeholders (s : String) : List String :=
  dedup_first (scan_delim '{' '}' s.data ++ scan_delim '[' ']' s.data ++
    scan_delim '<' '>' s.data ++ scan_percent_sd s.data ++ scan_percent_named s.data)

/-- Rules whose text mentions placeholders or tags (`_check_placeholders`). -/
def placeholder_rules_of (rules : List Rule) : List Rule :=
  rules.filter (fun r =>
    str_contains (py_lower r.rule_text) "placeholder" || str_contains (py_lower r.rule_text) "tag")

/-- Finding for a placeholder present in source but missing from target. -/
def missing_placeholder_finding (segment_id : String) (r : Rule) (ph : String) : Finding :=
  { segment_id := segment_id
    rule_id := r.rule_id
    severity := .major
    penalty := r.default_weight * 2
    justification := "Placeholder \x27" ++ ph ++ "\x27 from source is missing in target."
    citation := r.citation
    deterministic := true
    highlighted_text := some ph }

/-- Finding for a placeholder present in target but not in source. -/
def extra_placeholder_finding (segment_id : String) (r : Rule) (ph : String) : Finding :=
  { segment_id := segment_id
    rule_id := r.rule_id
    severity := .major
    penalty := r.default_weight * 2
    justification := "Placeholder \x27" ++ ph ++ "\x27 in target does not match source placeholders."
    citation := r.citation
    deterministic := true
    highlighted_text := some ph }

/-- `_check_placeholders`: set-difference the extracted placeholders and
report each discrepancy against the first placeholder/tag rule. -/
def check_placeholders (source_text target_text locale segment_id : String)
    (rules : List Rule) : List Finding :=
  match placeholder_rules_of rules with
  | [] => []
  | r :: _ =>
    let source_placeholders := extract_placeholders source_text
    let target_placeholders := extract_placeholders target_text
    let missing_placeholders :=
      source_placeholders.filter (fun p => !(target_placeholders.contains p))
    let extra_placeholders :=
      target_placeholders.filter (fun p => !(source_placeholders.contains p))
    missing_placeholders.map (missing_placeholder_finding segment_id r) ++
      (extra_placeholders.filter (fun p => !(source_placeholders.contains p))).map
        (extra_placeholder_finding segment_id r)

/-- Take exactly `n` decimal digits (`\d{n}`; ASCII digits). -/
def digits_take : Nat → List Char → Option (List Char × List Char)
  | 0, cs => some ([], cs)
  | _ + 1, [] => none
  | n + 1, c :: cs =>
      if c.isDigit then (digits_take n cs).map (fun p => (c :: p.1, p.2)) else none

/-- Match `\d{4}-\d{1,2}-\d{1,2}` at the head of the input, with the regex
backtracking on the greedy month, returning matched chars and the rest. -/
def match_iso_at (cs : List Char) : Option (List Char × List Char) :=
  match digits_take 4 cs with
  | none => none
  | some (y, r1) =>
    match r1 with
    | '-' :: r2 =>
      let month :=
        match digits_take 2 r2 with
        | some (m2, '-' :: r3) => some (m2, r3)
        | _ =>
          match digits_take 1 r2 with
          | some (m1, '-' :: r3) => some (m1, r3)
          | _ => none
      (match month with
      | none => none
      | some (m, r3) =>
        match digits_take 2 r3 with
        | some (d2, r4) => some (y ++ ['-'] ++ m ++ ['-'] ++ d2, r4)
        | none =>
          match digits_take 1 r3 with
          | some (d1, r4) => some (y ++ ['-'] ++ m ++ ['-'] ++ d1, r4)
          | none => none)
    | _ => none

/-- `re.findall(self.iso_date_pattern, target_text)`: leftmost
non-overlapping scan (fuel = input length bounds the steps). -/
def iso_findall_go : Nat → List Char → List String
  | 0, _ => []
  | _ + 1, [] => []
  | fuel + 1, c :: cs =>
    match match_iso_at (c :: cs) with
    | some (m, rest) => String.mk m :: iso_findall_go fuel rest
    | none => iso_findall_go fuel cs

/-- All ISO-style dates in a string. -/
def iso_findall (s : String) : List String :=
  iso_findall_go s.data.length s.data

/-- `re.search(re.escape(sub), s)`: code-point span of the first occurrence. -/
def find_sub_pos (sub s : String) : Option (Nat × Nat) :=
  go 0 s.data
where
  go (i : Nat) : List Char → Option (Nat × Nat)
    | [] => if lead_match sub.data [] then some (i, i + sub.length) else none
    | c :: cs =>
        if lead_match sub.data (c :: cs) then some (i, i + sub.length)
        else go (i + 1) cs

/-- The Finding built inside `_check_date_format` for one ISO date. -/
def date_finding (segment_id : String) (r : Rule) (iso_date : String)
    (sp : Nat × Nat) : Finding :=
  { segment_id := segment_id
    rule_id := r.rule_id
    severity := r.default_severity
    penalty := r.default_weight * 2
    justification := "ISO date format \x27" ++ iso_date ++
      "\x27 found; should use Chinese format (YYYY年M月D日)."
    citation := r.citation
    deterministic := true
    span_start := some (sp.1 : Int)
    span_end := some (sp.2 : Int)
    highlighted_text := some iso_date }

/-- `_check_date_format`: ISO dates in a zh-CN target are findings at the
first date-format rule's own default severity. -/
def check_date_format (source_text target_text locale segment_id : String)
    (rules : List Rule) : List Finding :=
  if locale ≠ "zh-CN" then [] else
  match rules.filter (fun r =>
    str_contains (py_lower r.rule_text) "date" &&
      (str_contains r.rule_text "年" || str_contains (py_lower r.rule_text) "format")) with
  | [] => []
  | r :: _ =>
    ((iso_findall target_text).map (fun d =>
      match find_sub_pos d target_text with
      | some sp => [date_finding segment_id r d sp]
      | none => [])).flatten

/-- The Finding built inside `_check_line_breaks`. -/
def line_break_finding (segment_id : String) (r : Rule)
    (source_breaks target_breaks : Int) : Finding :=
  { segment_id := segment_id
    rule_id := r.rule_id
    severity := .minor
    penalty := r.default_weight * 1  -- Minor severity
    justification := "Line break count mismatch: source has " ++
      toString source_breaks ++ ", target has " ++ toString target_breaks ++ "."
    citation := r.citation
    deterministic := true }

/-- `_check_line_breaks`: ±2 tolerance on newline counts, one Minor finding. -/
def check_line_breaks (source_text target_text locale segment_id : String)
    (rules : List Rule) : List Finding :=
  match rules.filter (fun r =>
    str_contains (py_lower r.rule_text) "line break" ||
      str_contains (py_lower r.rule_text) "formatting") with
  | [] => []
  | r :: _ =>
    if ((source_text.data.count '\n' : Int) - (target_text.data.count '\n' : Int)).natAbs
        > 2 then
      [line_break_finding segment_id r (source_text.data.count '\n' : Int)
        (target_text.data.count '\n' : Int)]
    else []

/-- One regex match: span start, span end, matched text (`match.group()`). -/
abbrev RegexMatch := Nat × Nat × String

/-- Python's `re` engine as seen by `_check_regex_rules`: a pattern applied
to the target yields its matches, or an error for an invalid pattern
(`re.error`).  The engine itself is an explicit (deterministic) parameter. -/
abbrev RegexEngine := String → String → Except Unit (List RegexMatch)

/-- The Finding built inside `_check_regex_rules` for one match. -/
def regex_finding (segment_id : String) (r : Rule) (m : RegexMatch) : Finding :=
  { segment_id := segment_id
    rule_id := r.rule_id
    severity := r.default_severity
    penalty := r.default_weight * 2  -- Default to major
    justification := "Regex pattern violation: " ++ r.rule_text
    citation := r.citation
    deterministic := true
    span_start := some (m.1 : Int)
    span_end := some (m.2.1 : Int)
    highlighted_text := some m.2.2 }

/-- `_check_regex_rules`: each pattern match on the target is a finding; an
invalid pattern is logged and that rule skipped. -/
def check_regex_rules (re_engine : RegexEngine)
    (source_text target_text locale segment_id : String)
    (regex_rules : List Rule) : List Finding :=
  (regex_rules.map (fun r =>
    match r.regex_pattern with
    | none => []
    | some pat =>
      match re_engine pat target_text with
      | .error _ => []  -- invalid regex: skipped, never aborts the batch
      | .ok ms => ms.map (regex_finding segment_id r))).flatten

/-- `run_all_checks` from `deterministic_validators.py`.  `pyHash` stands for
CPython's per-process salted `hash` on strings, used only to build
`segment_id = "seg_" + str(hash(target_text))[:8]`. -/
def run_all_checks (pyHash : String → Int) (re_engine : RegexEngine)
    (source_text target_text locale : String) (rules : List Rule) : List Finding :=
  let segment_id := "seg_" ++ py_take (toString (pyHash target_text)) 8
  let regex_rules := rules.filter (fun r => r.regex_ready && r.regex_pattern.isSome)
  check_punctuation_width source_text target_text locale segment_id rules ++
    check_placeholders source_text target_text locale segment_id rules ++
    check_date_format source_text target_text locale segment_id rules ++
    check_line_breaks source_text target_text locale segment_id rules ++
    check_regex_rules re_engine source_text target_text locale segment_id regex_rules

/-! ### Scoring (`evaluation_engine._calculate_score` and
`review_service._recalculate_score`) -/

/-- The scoring configuration defaults from `config.py`: severity
multipliers Minor/Major/Critical = 1/2/3. -/
def severity_multipliers : Severity → Int
  | .minor => 1
  | .major => 2
  | .critical => 3

/-- `config.STYLE_PUNCTUATION_CAP` default. -/
def style_punctuation_cap : Int := 30

/-- The `(final_score, total_penalty, by_macro_map)` produced by a scoring pass
(`total_penalty` is the post-cap penalty term from which
`final_score = max(0, 100 - total_penalty)` is derived). -/
structure ScoreOutcome where
  final_score : Int
  total_penalty : Int
  by_macro_map : ByMacro
deriving DecidableEq, Repr

/-- The shared accumulation loop over findings: add each finding's penalty
to the running total and to its macro class's breakdown entry. -/
def aggregate (classify : Finding → String) (findings : List Finding) : Int × ByMacro :=
  findings.foldl
    (fun acc f => (acc.1 + f.penalty, bm_add acc.2 (classify f) f.penalty f.rule_id))
    (0, [])

/-- `EvaluationEngine._get_macro_class_from_finding`: keyword fallback over
the upper-cased rule id, with the `QUALITY_*` table first. -/
def get_macro_class_from_finding (f : Finding) : String :=
  let rule_id := py_upper f.rule_id
  if py_startswith rule_id "QUALITY_" then
    if str_contains rule_id "SCRIPT_MIXING" || str_contains rule_id "ACCURACY_ERROR" ||
        str_contains rule_id "COMPLETENESS_ERROR" || str_contains rule_id "GRAMMAR_ERROR" then
      "Accuracy"
    else if str_contains rule_id "TERMINOLOGY_ERROR" then "Terminology"
    else if str_contains rule_id "PROFESSIONALISM_ERROR" then "Style"
    else "Accuracy"  -- Default for quality issues
  else
    if str_contains rule_id "PUNCT" || str_contains rule_id "EXCL" ||
        str_contains rule_id "COMMA" then "Punctuation"
    else if str_contains rule_id "TERM" || str_contains rule_id "GLOSS" then "Terminology"
    else if str_contains rule_id "DATE" || str_contains rule_id "PLACEHOLDER" ||
        str_contains rule_id "TAG" then "Mechanics"
    else if str_contains rule_id "LEGAL" then "Legal"
    else if str_contains rule_id "ACCURACY" || str_contains rule_id "MEANING" then "Accuracy"
    else "Style"

/-- `rule_lookup = {rule.rule_id: rule for rule in kb['rules']}`: a dict
comprehension, so a duplicated id keeps the last rule. -/
def rule_lookup (kb_rules : List Rule) (rid : String) : Option Rule :=
  kb_rules.reverse.find? (fun r => r.rule_id = rid)

/-- Macro-class resolution in `_calculate_score`: prefer the matched Rule
Store entry, else the keyword fallback. -/
def engine_macro_class (kb_rules : List Rule) (f : Finding) : String :=
  match rule_lookup kb_rules f.rule_id with
  | some r => r.macro_class.value
  | none => get_macro_class_from_finding f

/-- `EvaluationEngine._calculate_score` (the scoring part: findings plus the
knowledge-base rules to `(final_score, total_penalty, by_macro_map)`).
`cap = config.STYLE_PUNCTUATION_CAP` (default 30); `//` is `Int.fdiv`. -/
def calculate_score (cap : Int) (kb_rules : List Rule) (findings : List Finding) :
    ScoreOutcome :=
  let base_score : Int := 100
  let (total_penalty, by_macro_map) := aggregate (engine_macro_class kb_rules) findings
  let style_penalty := bm_pen by_macro_map "Style"
  let punctuation_penalty := bm_pen by_macro_map "Punctuation"
  if style_penalty + punctuation_penalty > cap then
    let excess := (style_penalty + punctuation_penalty) - cap
    let total_penalty := total_penalty - excess
    let by_macro_map := bm_clamp (bm_clamp by_macro_map "Style" (Int.fdiv cap 2))
      "Punctuation" (Int.fdiv cap 2)
    ⟨max 0 (base_score - total_penalty), total_penalty, by_macro_map⟩
  else
    ⟨max 0 (base_score - total_penalty), total_penalty, by_macro_map⟩

/-- `ReviewService._determine_macro_class`: keyword fallback over the
upper-cased rule id only — no Rule Store lookup and no `QUALITY_*` table. -/
def determine_macro_class (rid : String) : String :=
  let rule_id := py_upper rid
  if str_contains rule_id "PUNCT" || str_contains rule_id "EXCL" ||
      str_contains rule_id "COMMA" then "Punctuation"
  else if str_contains rule_id "TERM" || str_contains rule_id "GLOSS" then "Terminology"
  else if str_contains rule_id "DATE" || str_contains rule_id "PLACEHOLDER" ||
      str_contains rule_id "TAG" then "Mechanics"
  else if str_contains rule_id "LEGAL" then "Legal"
  else if str_contains rule_id "ACCURACY" || str_contains rule_id "MEANING" then "Accuracy"
  else "Style"

/-- `ReviewService._recalculate_score`: the same loop over the non-dismissed
findings, with the hard-coded cap 30 and clamp 15. -/
def recalculate_score (findings : List Finding) : ScoreOutcome :=
  let base_score : Int := 100
  let (total_penalty, by_macro_map) :=
    aggregate (fun f => determine_macro_class f.rule_id)
      (findings.filter (fun f => !f.dismissed))
  let style_penalty := bm_pen by_macro_map "Style"
  let punctuation_penalty := bm_pen by_macro_map "Punctuation"
  if style_penalty + punctuation_penalty > 30 then
    let excess := (style_penalty + punctuation_penalty) - 30
    let total_penalty := total_penalty - excess
    let by_macro_map := bm_clamp (bm_clamp by_macro_map "Style" 15) "Punctuation" 15
    ⟨max 0 (base_score - total_penalty), total_penalty, by_macro_map⟩
  else
    ⟨max 0 (base_score - total_penalty), total_penalty, by_macro_map⟩

/-! ### `review_service.process_override` -/

/-- The persisted evaluation record as the Override Processor sees it (the
fields it reads and rewrites). -/
structure Evaluation where
  findings : List Finding
  final_score : Int
  by_macro_map : ByMacro
deriving DecidableEq, Repr

/-- The hard-coded `severity_multipliers` dict in `process_override`, read
with `.get(value, 2)`. -/
def mult_get (s : String) : Int :=
  if s = "Minor" then 1
  else if s = "Major" then 2
  else if s = "Critical" then 3
  else 2

/-- The `change_severity` branch's mutation of a finding: recover the base
weight by floor division of the current penalty by the current severity's
multiplier, then apply the new severity's multiplier. -/
def change_severity_update (f : Finding) (ns : Severity) : Finding :=
  { f with severity := ns,
           penalty := Int.fdiv f.penalty (mult_get f.severity.value) * mult_get ns.value }

/-- The finding-location loop: first finding whose `segment_id` or
`rule_id` equals the requested finding id, with its index. -/
def find_target (fid : String) : List Finding → Option (Nat × Finding)
  | [] => none
  | f :: fs =>
    if f.segment_id = fid || f.rule_id = fid then some (0, f)
    else (find_target fid fs).map (fun p => (p.1 + 1, p.2))

/-- The action branches of `process_override`: returns the mutated finding
together with the event's `old_value` and `new_value` strings. -/
def apply_action (req : ReviewOverrideRequest) (f : Finding) :
    Finding × String × String :=
  let old_value := f.severity.value
  match req.action, req.new_severity with
  | .change_severity, some ns =>
    (change_severity_update f ns, old_value, ns.value)
  | .dismiss, _ => ({ f with dismissed := true, penalty := 0 }, old_value, "Dismissed")
  | .accept, _ => ({ f with accepted := true }, old_value, "Accepted")
  | _, _ => (f, old_value, old_value)

/-- `ReviewService.process_override`: locate the finding, mutate it, rebuild
the feedback event, then re-run `_recalculate_score` over the whole record.
`event_id` stands for the generated uuid; `none` models the raised
"Finding not found" exception. -/
def process_override (event_id : String) (ev : Evaluation)
    (req : ReviewOverrideRequest) : Option (FeedbackEvent × Evaluation) :=
  match find_target req.finding_id ev.findings with
  | none => none
  | some (i, f) =>
    let (f', old_value, new_value) := apply_action req f
    let findings' := ev.findings.set i f'
    let out := recalculate_score findings'
    let fe : FeedbackEvent :=
      { event_id := event_id
        segment_id := f'.segment_id
        rule_id := f'.rule_id
        action := req.action
        old_value := old_value
        new_value := new_value
        reason := req.reason
        actor := req.reviewer }
    some (fe, { findings := findings', final_score := out.final_score,
                by_macro_map := out.by_macro_map })

/-! ### `lm_studio_client.py` (external capability outcomes) -/

/-- One issue report of the Quality Assessor (already shaped by the JSON
schema; `Severity(...)` applied). -/
structure QualityFinding where
  issue_type : String
  severity : Severity
  justification : String
  highlighted_text : Option String := none
  span_start : Option Int := none
  span_end : Option Int := none
deriving DecidableEq, Repr

/-- One violation report of the Rule-Compliance Assessor. -/
structure LLMFinding where
  rule_id : String
  severity : Severity
  justification : String
  highlighted_text : Option String := none
  span_start : Option Int := none
  span_end : Option Int := none
deriving DecidableEq, Repr

/-- `evaluate_translation_quality`: `chat` is the `chat_completion` outcome
(content string, or the exception it raises on connection error / timeout /
non-200 status); `parse` models `json.loads` + field extraction, `none`
standing for a `JSONDecodeError`.  Only the parse failure is caught. -/
def evaluate_translation_quality (chat : Except String String)
    (parse : String → Option (List QualityFinding)) :
    Except String (List QualityFinding) :=
  match chat with
  | .error e => .error e  -- chat_completion raises; nothing here catches it
  | .ok content =>
    match parse content with
    | some fs => .ok fs
    | none => .ok []  -- JSONDecodeError: logged, empty list returned

/-- `evaluate_translation` (the rule-compliance call): same error shape. -/
def evaluate_translation (chat : Except String String)
    (parse : String → Option (List LLMFinding)) :
    Except String (List LLMFinding) :=
  match chat with
  | .error e => .error e
  | .ok content =>
    match parse content with
    | some fs => .ok fs
    | none => .ok []

/-! ### `embedding_service.hybrid_search` -/

/-- One value of `self.rule_index` (embeddings are abstract vectors; the
claims settled here never depend on the similarity values). -/
structure IndexEntry where
  rule : Rule
  embedding : List Rat
  text : String
deriving DecidableEq, Repr

/-- One ranked element of the `hybrid_search` result. -/
structure SearchHit where
  rule_id : String
  rule : Rule
  score : Rat
  semantic_score : Rat
  keyword_score : Rat
deriving DecidableEq, Repr

/-- `sklearn.metrics.pairwise.cosine_similarity` as an abstract (pure)
function parameter. -/
abbrev Cosine := List Rat → List Rat → Rat

/-- Stable descending insertion (Python `list.sort(key=..., reverse=True)`
is a stable descending sort; on ties the original order is kept). -/
def insert_desc (x : SearchHit) : List SearchHit → List SearchHit
  | [] => [x]
  | y :: ys => if y.score < x.score then x :: y :: ys else y :: insert_desc x ys

/-- Stable descending sort by combined score. -/
def sort_desc (l : List SearchHit) : List SearchHit :=
  l.foldl (fun acc x => insert_desc x acc) []

/-- `EmbeddingService.hybrid_search`.  `rule_index` is the loaded index for
the requested `(kb_version, locale)` (empty = absent); `embed_query` is the
outcome of the query-embedding call.  The locale-skip guard in the source
tests `hasattr(rule.citation, 'locale')`, which is always false for the
`Citation` model, so it never skips anything. -/
def hybrid_search (rule_index : List (String × IndexEntry))
    (embed_query : Except String (List Rat)) (cosine : Cosine)
    (query_text : String) (top_k : Nat) : List SearchHit :=
  if rule_index.isEmpty then []  -- no rule index found: not an error
  else
    match embed_query with
    | .error _ => []  -- query-embedding failure: logged, empty result
    | .ok query_embedding =>
      let similarities := rule_index.map (fun p =>
        let rule_data := p.2
        let semantic_sim := cosine query_embedding rule_data.embedding
        let query_words := dedup_first (py_split_ws (py_lower query_text))
        let rule_words := dedup_first (py_split_ws (py_lower rule_data.text))
        let keyword_sim : Rat :=
          ((query_words.filter (fun w => rule_words.contains w)).length : Rat) /
            ((max query_words.length 1 : Nat) : Rat)
        { rule_id := p.1
          rule := rule_data.rule
          score := (7 : Rat) / 10 * semantic_sim + (3 : Rat) / 10 * keyword_sim
          semantic_score := semantic_sim
          keyword_score := keyword_sim })
      (sort_desc similarities).take top_k

/-! ### `evaluation_engine.evaluate` -/

/-- The knowledge-base payload `_load_knowledge_base` returns. -/
structure KnowledgeBaseData where
  kb_version : String
  rubric_version : String
  rules : List Rule
deriving DecidableEq, Repr

/-- `class ScoreReport(BaseModel)` (timestamp omitted). -/
structure ScoreReport where
  job_id : String
  kb_version : String
  rubric_version : String
  model_prompt_version : String
  final_score : Int
  findings : List Finding
  by_macro_map : ByMacro
  source_text : String
  target_text : String
  locale : String
deriving DecidableEq, Repr

/-- `config.MODEL_PROMPT_VERSION` default. -/
def model_prompt_version : String := "1.0.0"

/-- Python `str.title()` (ASCII): uppercase a letter starting a word,
lowercase the rest. -/
def py_title (s : String) : String :=
  String.mk (go false s.data)
where
  go : Bool → List Char → List Char
    | _, [] => []
    | prevAlpha, c :: cs =>
      if c.isAlpha then
        (if prevAlpha then c.toLower else c.toUpper) :: go true cs
      else c :: go false cs

/-- The `macro_class_map` dict literal built inside `evaluate` for quality
findings; the source computes it but never reads it (the macro class is
resolved later by `_get_macro_class_from_finding`). -/
def quality_macro_class_map : List (String × String) :=
  [("script_mixing", "Accuracy"), ("accuracy_error", "Accuracy"),
   ("completeness_error", "Accuracy"), ("grammar_error", "Accuracy"),
   ("terminology_error", "Terminology"), ("professionalism_error", "Style")]

/-- Conversion of one Quality Assessor report to a `Finding` inside
`evaluate` (synthetic rule id, flat base weight 15). -/
def convert_quality_finding (job_id : String) (q : QualityFinding) : Finding :=
  let issue_type := q.issue_type
  let synthetic_rule_id := "QUALITY_" ++ py_upper issue_type
  let synthetic_citation : Citation :=
    { section_path := ["General Translation Quality",
        py_title (issue_type.replace "_" " ")]
      document_name := some "Professional Translation Standards" }
  let base_weight : Int := 15  -- higher than style guide rules (typically 3-8)
  { segment_id := "seg_" ++ job_id
    rule_id := synthetic_rule_id
    severity := q.severity
    penalty := base_weight * severity_multipliers q.severity
    justification := q.justification
    citation := synthetic_citation
    deterministic := false
    span_start := q.span_start
    span_end := q.span_end
    highlighted_text := q.highlighted_text }

/-- Conversion of one Rule-Compliance report to a `Finding` inside
`evaluate` (only called for a report whose rule id matched a candidate). -/
def convert_llm_finding (job_id : String) (matching_rule : Rule)
    (l : LLMFinding) : Finding :=
  { segment_id := "seg_" ++ job_id
    rule_id := l.rule_id
    severity := l.severity
    penalty := matching_rule.default_weight * severity_multipliers l.severity
    justification := l.justification
    citation := matching_rule.citation
    deterministic := false
    span_start := l.span_start
    span_end := l.span_end
    highlighted_text := l.highlighted_text }

/-- `EvaluationEngine.evaluate`: the full pipeline.  All external effects
are explicit parameters: `kb` is the `_load_knowledge_base` outcome,
`quality_chat`/`compliance_chat` the two chat-completion outcomes with their
JSON parses, `rule_index`/`embed_query`/`cosine` the retrieval state.  An
`Except.error` models the exception the Python coroutine raises. -/
def evaluate (job_id : String) (pyHash : String → Int) (re_engine : RegexEngine)
    (kb : Option KnowledgeBaseData)
    (quality_chat : Except String String)
    (quality_parse : String → Option (List QualityFinding))
    (rule_index : List (String × IndexEntry))
    (embed_query : Except String (List Rat)) (cosine : Cosine)
    (compliance_chat : Except String String)
    (compliance_parse : String → Option (List LLMFinding))
    (cap : Int)
    (source_text target_text locale : String) : Except String ScoreReport :=
  match kb with
  | none => .error ("No knowledge base found for locale " ++ locale)
  | some kbd => do
    -- Step 1: deterministic checks
    let deterministic_findings :=
      run_all_checks pyHash re_engine source_text target_text locale kbd.rules
    -- Step 2: translation quality assessment (failure propagates: no try)
    let quality_findings ← evaluate_translation_quality quality_chat quality_parse
    let quality_converted := quality_findings.map (convert_quality_finding job_id)
    let all_findings := deterministic_findings ++ quality_converted
    -- Step 3: hybrid retrieval
    let query_text := "Source: " ++ source_text ++ "\nTarget: " ++ target_text
    let candidate_rules := hybrid_search rule_index embed_query cosine query_text 20
    -- Step 4: style guide rule evaluation (only when candidates exist)
    let llm_converted ←
      if candidate_rules.isEmpty then pure []
      else do
        let llm_findings ← evaluate_translation compliance_chat compliance_parse
        pure (llm_findings.filterMap (fun l =>
          (candidate_rules.find? (fun c => c.rule.rule_id = l.rule_id)).map
            (fun c => convert_llm_finding job_id c.rule l)))
    let all_findings := all_findings ++ llm_converted
    -- Step 5: score
    let out := calculate_score cap kbd.rules all_findings
    pure { job_id := job_id
           kb_version := kbd.kb_version
           rubric_version := kbd.rubric_version
           model_prompt_version := model_prompt_version
           final_score := out.final_score
           findings := all_findings
           by_macro_map := out.by_macro_map
           source_text := source_text
           target_text := target_text
           locale := locale }

/-- `Except` success test (used to state abort/no-abort behaviour). -/
def except_ok {ε α : Type} : Except ε α → Bool
  | .ok _ => true
  | .error _ => false

/-! ### Derived quantities used to state and prove the scoring properties -/

/-- Weighted sum of a finding list. -/
def wsum (w : Finding → Int) (fs : List Finding) : Int :=
  (fs.map w).sum

/-- Sum of all penalties. -/
def sum_pen (fs : List Finding) : Int :=
  wsum (fun f => f.penalty) fs

/-- Sum of the penalties of the findings a classifier sends to class `k`. -/
def sum_pen_class (cls : Finding → String) (k : String) (fs : List Finding) : Int :=
  wsum (fun f => f.penalty) (fs.filter (fun f => cls f = k))

/-- The non-dismissed findings. -/
def live (fs : List Finding) : List Finding :=
  fs.filter (fun f => !f.dismissed)

/-- Penalty of a finding unless dismissed. -/
def live_pen (f : Finding) : Int :=
  if f.dismissed then 0 else f.penalty

/-- Penalty of a non-dismissed finding that `_determine_macro_class` sends
to class `k`. -/
def live_pen_class (k : String) (f : Finding) : Int :=
  if f.dismissed then 0 else
    if determine_macro_class f.rule_id = k then f.penalty else 0

/-- The Style+Punctuation part of an Override-Processor recomputation. -/
def rec_sp (fs : List Finding) : Int :=
  wsum (live_pen_class "Style") fs + wsum (live_pen_class "Punctuation") fs

/-! ### Lemmas about the `by_macro_map` dict operations -/

theorem sum_bm_add (bm : ByMacro) (k : String) (p : Int) (rid : String) :
    sum_bm (bm_add bm k p rid) = sum_bm bm + p := by
  induction bm with
  | nil => simp [bm_add, sum_bm]
  | cons e rest ih =>
    obtain ⟨k', b⟩ := e
    by_cases h : k' = k <;> simp [bm_add, h, sum_bm] at ih ⊢ <;> omega

theorem bm_pen_add (bm : ByMacro) (k : String) (p : Int) (rid : String) (k' : String) :
    bm_pen (bm_add bm k p rid) k' = bm_pen bm k' + (if k = k' then p else 0) := by
  induction bm with
  | nil =>
    by_cases h : k = k' <;> simp [bm_add, bm_pen, h]
  | cons e rest ih =>
    obtain ⟨k₀, b⟩ := e
    by_cases h0 : k₀ = k
    · subst h0
      by_cases h1 : k₀ = k' <;> simp [bm_add, bm_pen, h1]
    · by_cases h1 : k₀ = k'
      · have h2 : ¬k = k' := fun hk => h0 (h1.trans hk.symm)
        have h2' : ¬k' = k := fun hk => h2 hk.symm
        simp [bm_add, bm_pen, h0, h1, h2, h2']
      · simp [bm_add, bm_pen, h0, h1, ih]

theorem bm_pen_clamp_self (bm : ByMacro) (k : String) (m : Int) (hm : 0 ≤ m) :
    bm_pen (bm_clamp bm k m) k = min (bm_pen bm k) m := by
  induction bm with
  | nil => simp [bm_clamp, bm_pen, le_antisymm_iff, hm]
  | cons e rest ih =>
    obtain ⟨k₀, b⟩ := e
    by_cases h : k₀ = k
    · simp [bm_clamp, bm_pen, h]
    · simp [bm_clamp, bm_pen, h, ih]

theorem bm_pen_clamp_other (bm : ByMacro) (k : String) (m : Int) (k' : String)
    (h : k ≠ k') : bm_pen (bm_clamp bm k m) k' = bm_pen bm k' := by
  induction bm with
  | nil => simp [bm_clamp]
  | cons e rest ih =>
    obtain ⟨k₀, b⟩ := e
    by_cases h0 : k₀ = k
    · have h1 : ¬k₀ = k' := fun hk => h (h0 ▸ hk)
      have h2 : ¬k = k' := h
      simp [bm_clamp, bm_pen, h0, h1, h2]
    · by_cases h1 : k₀ = k'
      · have h2 : ¬k' = k := fun hk => h0 (h1.trans hk)
        simp [bm_clamp, bm_pen, h0, h1, h2]
      · simp [bm_clamp, bm_pen, h0, h1, ih]

/-! ### Lemmas about the accumulation loop -/

theorem aggregate_go_fst (cls : Finding → String) (fs : List Finding)
    (t : Int) (bm : ByMacro) :
    (fs.foldl (fun acc f =>
        (acc.1 + f.penalty, bm_add acc.2 (cls f) f.penalty f.rule_id)) (t, bm)).1 =
      t + sum_pen fs := by
  induction fs generalizing t bm with
  | nil => simp [sum_pen, wsum]
  | cons f fs ih =>
    simp only [List.foldl]
    rw [ih]
    simp [sum_pen, wsum]
    ring

theorem aggregate_fst (cls : Finding → String) (fs : List Finding) :
    (aggregate cls fs).1 = sum_pen fs := by
  simpa using aggregate_go_fst cls fs 0 []

theorem aggregate_go_sum_bm (cls : Finding → String) (fs : List Finding)
    (t : Int) (bm : ByMacro) :
    sum_bm (fs.foldl (fun acc f =>
        (acc.1 + f.penalty, bm_add acc.2 (cls f) f.penalty f.rule_id)) (t, bm)).2 =
      sum_bm bm + sum_pen fs := by
  induction fs generalizing t bm with
  | nil => simp [sum_pen, wsum]
  | cons f fs ih =>
    simp only [List.foldl]
    rw [ih, sum_bm_add]
    simp [sum_pen, wsum]
    ring

theorem aggregate_sum_bm (cls : Finding → String) (fs : List Finding) :
    sum_bm (aggregate cls fs).2 = sum_pen fs := by
  have h := aggregate_go_sum_bm cls fs 0 []
  simpa [sum_bm] using h

theorem aggregate_go_bm_pen (cls : Finding → String) (fs : List Finding)
    (t : Int) (bm : ByMacro) (k : String) :
    bm_pen (fs.foldl (fun acc f =>
        (acc.1 + f.penalty, bm_add acc.2 (cls f) f.penalty f.rule_id)) (t, bm)).2 k =
      bm_pen bm k + sum_pen_class cls k fs := by
  induction fs generalizing t bm with
  | nil => simp [sum_pen_class, wsum]
  | cons f fs ih =>
    simp only [List.foldl]
    rw [ih, bm_pen_add]
    by_cases h : cls f = k <;> (simp [sum_pen_class, wsum, h, List.filter]; try ring)

theorem aggregate_bm_pen (cls : Finding → String) (fs : List Finding) (k : String) :
    bm_pen (aggregate cls fs).2 k = sum_pen_class cls k fs := by
  have h := aggregate_go_bm_pen cls fs 0 [] k
  simpa [bm_pen] using h

theorem aggregate_go_congr (cls₁ cls₂ : Finding → String) (fs : List Finding)
    (init : Int × ByMacro) (h : ∀ f ∈ fs, cls₁ f = cls₂ f) :
    fs.foldl (fun acc f =>
        (acc.1 + f.penalty, bm_add acc.2 (cls₁ f) f.penalty f.rule_id)) init =
      fs.foldl (fun acc f =>
        (acc.1 + f.penalty, bm_add acc.2 (cls₂ f) f.penalty f.rule_id)) init := by
  induction fs generalizing init with
  | nil => rfl
  | cons f fs ih =>
    simp only [List.foldl]
    rw [h f (by simp)]
    exact ih _ (fun g hg => h g (by simp [hg]))

theorem aggregate_congr (cls₁ cls₂ : Finding → String) (fs : List Finding)
    (h : ∀ f ∈ fs, cls₁ f = cls₂ f) : aggregate cls₁ fs = aggregate cls₂ fs :=
  aggregate_go_congr cls₁ cls₂ fs (0, []) h

/-! ### Bridging the filtered sums with whole-list weighted sums -/

theorem sum_pen_live (fs : List Finding) : sum_pen (live fs) = wsum live_pen fs := by
  induction fs with
  | nil => rfl
  | cons f fs ih =>
    by_cases h : f.dismissed <;>
      simp [live, sum_pen, wsum, live_pen, List.filter, h] at ih ⊢ <;> omega

theorem sum_pen_class_live (k : String) (fs : List Finding) :
    sum_pen_class (fun f => determine_macro_class f.rule_id) k (live fs) =
      wsum (live_pen_class k) fs := by
  induction fs with
  | nil => rfl
  | cons f fs ih =>
    by_cases hd : f.dismissed
    · simpa [live, sum_pen_class, wsum, live_pen_class, List.filter, hd] using ih
    · by_cases hc : determine_macro_class f.rule_id = k <;>
        simp [live, sum_pen_class, wsum, live_pen_class, List.filter, hd, hc] at ih ⊢ <;>
        omega

theorem wsum_set (w : Finding → Int) (fs : List Finding) (i : Nat) (f g : Finding)
    (h : fs[i]? = some f) :
    wsum w (fs.set i g) = wsum w fs - w f + w g := by
  induction fs generalizing i with
  | nil => simp at h
  | cons f₀ fs ih =>
    cases i with
    | zero =>
      simp at h
      subst h
      simp [wsum]
      ring
    | succ j =>
      simp at h
      have := ih j h
      simp [wsum, List.set] at this ⊢
      omega

theorem find_target_get (fid : String) (fs : List Finding) (i : Nat) (f : Finding)
    (h : find_target fid fs = some (i, f)) : fs[i]? = some f := by
  induction fs generalizing i with
  | nil => simp [find_target] at h
  | cons f₀ fs ih =>
    by_cases h0 : f₀.segment_id = fid || f₀.rule_id = fid
    · simp [find_target, h0] at h
      obtain ⟨h1, h2⟩ := h
      subst h1; subst h2
      simp
    · simp only [find_target, h0, if_neg] at h
      simp only [Bool.false_eq_true, if_false] at h
      match hft : find_target fid fs with
      | none => rw [hft] at h; simp at h
      | some (j, g) =>
        rw [hft] at h
        simp at h
        obtain ⟨h1, h2⟩ := h
        subst h2
        rw [← h1]
        simpa using ih j hft

theorem get_set_some (fs : List Finding) (i : Nat) (f g : Finding)
    (h : fs[i]? = some f) : (fs.set i g)[i]? = some g := by
  induction fs generalizing i with
  | nil => simp at h
  | cons f₀ fs ih =>
    cases i with
    | zero => simp
    | succ j =>
      simp at h
      simpa [List.set] using ih j h

/-! ### Characterizing the Override Processor's recomputation -/

theorem recalculate_total (fs : List Finding) :
    (recalculate_score fs).total_penalty =
      wsum live_pen fs - max 0 (rec_sp fs - 30) := by
  have h1 := aggregate_fst (fun f => determine_macro_class f.rule_id) (live fs)
  have h2 := aggregate_bm_pen (fun f => determine_macro_class f.rule_id) (live fs) "Style"
  have h3 := aggregate_bm_pen (fun f => determine_macro_class f.rule_id) (live fs)
    "Punctuation"
  rw [sum_pen_live] at h1
  rw [sum_pen_class_live] at h2 h3
  unfold recalculate_score
  rcases hagg : aggregate (fun f => determine_macro_class f.rule_id)
    (fs.filter (fun f => !f.dismissed)) with ⟨t, bm⟩
  have hlive : (fs.filter (fun f => !f.dismissed)) = live fs := rfl
  rw [hlive] at hagg
  rw [hagg] at h1 h2 h3
  simp only [hagg]
  simp only at h1 h2 h3
  rw [h2, h3]
  unfold rec_sp
  rw [max_def]
  split_ifs <;> simp [h1] <;> omega

theorem recalculate_final (fs : List Finding) :
    (recalculate_score fs).final_score =
      max 0 (100 - (recalculate_score fs).total_penalty) := by
  unfold recalculate_score
  rcases hagg : aggregate (fun f => determine_macro_class f.rule_id)
    (fs.filter (fun f => !f.dismissed)) with ⟨t, bm⟩
  simp only [hagg]
  split_ifs <;> rfl

/-- The mutated finding produced by the dismiss branch of `process_override`. -/
def dismiss_finding (f : Finding) : Finding :=
  { f with dismissed := true, penalty := 0 }

theorem rec_sp_set_dismiss (fs : List Finding) (i : Nat) (f : Finding)
    (h : fs[i]? = some f) (hd : f.dismissed = false) :
    rec_sp (fs.set i (dismiss_finding f)) =
      rec_sp fs - (live_pen_class "Style" f + live_pen_class "Punctuation" f) := by
  unfold rec_sp
  rw [wsum_set _ _ _ _ _ h, wsum_set _ _ _ _ _ h]
  simp [live_pen_class, dismiss_finding]
  omega

theorem live_pen_set_dismiss (fs : List Finding) (i : Nat) (f : Finding)
    (h : fs[i]? = some f) (hd : f.dismissed = false) :
    wsum live_pen (fs.set i (dismiss_finding f)) = wsum live_pen fs - f.penalty := by
  rw [wsum_set _ _ _ _ _ h]
  simp [live_pen, dismiss_finding, hd]

theorem live_pen_class_cases (f : Finding) (hd : f.dismissed = false)
    (hp : 0 ≤ f.penalty) :
    live_pen_class "Style" f + live_pen_class "Punctuation" f = 0 ∨
      live_pen_class "Style" f + live_pen_class "Punctuation" f = f.penalty := by
  unfold live_pen_class
  rw [hd]
  by_cases h1 : determine_macro_class f.rule_id = "Style"
  · have h2 : determine_macro_class f.rule_id ≠ "Punctuation" := by
      rw [h1]; decide
    simp [h1, h2]
  · by_cases h2 : determine_macro_class f.rule_id = "Punctuation" <;> simp [h1, h2]

/-- Dismissal is monotone for the Override Processor's own recomputation. -/
theorem recalc_dismiss_mono (fs : List Finding) (i : Nat) (f : Finding)
    (h : fs[i]? = some f) (hd : f.dismissed = false) (hp : 0 ≤ f.penalty) :
    (recalculate_score fs).final_score ≤
      (recalculate_score (fs.set i (dismiss_finding f))).final_score := by
  rw [recalculate_final, recalculate_final, recalculate_total, recalculate_total]
  rw [live_pen_set_dismiss fs i f h hd, rec_sp_set_dismiss fs i f h hd]
  have hcases := live_pen_class_cases f hd hp
  rw [max_def, max_def, max_def, max_def]
  split_ifs <;> omega

/-- Without cap interaction and with the totals inside the 0–100 band,
dismissing a penalty-10 finding raises the recomputed score by exactly 10. -/
theorem recalc_dismiss_exact (fs : List Finding) (i : Nat) (f : Finding)
    (h : fs[i]? = some f) (hd : f.dismissed = false) (hpen : f.penalty = 10)
    (hsp : rec_sp fs ≤ 30) (htot : wsum live_pen fs ≤ 100) :
    (recalculate_score (fs.set i (dismiss_finding f))).final_score =
      (recalculate_score fs).final_score + 10 := by
  have hp : (0 : Int) ≤ f.penalty := by omega
  rw [recalculate_final, recalculate_final, recalculate_total, recalculate_total]
  rw [live_pen_set_dismiss fs i f h hd, rec_sp_set_dismiss fs i f h hd]
  have hcases := live_pen_class_cases f hd hp
  rw [max_def, max_def, max_def, max_def]
  split_ifs <;> omega

/-! ### Concrete fixtures for the claims -/

/-- A generic citation for concrete findings. -/
def cit0 : Citation := { section_path := ["Style"] }

/-- A Style finding of penalty 35 (rule id matching no keyword, so the
fallback classifies it as Style). -/
def c1_finding : Finding :=
  { segment_id := "seg_c1", rule_id := "S1", severity := .major, penalty := 35,
    justification := "j", citation := cit0, deterministic := false }

/-- A Style finding of penalty 10. -/
def c1w_finding : Finding :=
  { segment_id := "seg_c1w", rule_id := "S1", severity := .major, penalty := 10,
    justification := "j", citation := cit0, deterministic := false }

/-- C1: after every evaluation and after every override recomputation, the
sum of the per-category penalties reported in `by_macro_map` equals the total
penalty term used to derive `final_score` after the cap adjustment.  FALSE:
one Style finding of penalty 35 makes `_calculate_score` reduce the total to
30 while clamping the Style breakdown entry to 15, so the reported breakdown
sums to 15 ≠ 30. -/
theorem C1_counterexample :
    sum_bm (calculate_score 30 [] [c1_finding]).by_macro_map ≠
      (calculate_score 30 [] [c1_finding]).total_penalty := by
  decide

/-- C1 (amended): in both `_calculate_score` and `_recalculate_score` the
breakdown sum equals the post-cap total penalty whenever the accumulated
Style+Punctuation penalty does not exceed the cap; when the cap fires, the
clamped breakdown may sum below the (authoritative) total. -/
theorem C1_amended :
    (∀ (cap : Int) (kb_rules : List Rule) (findings : List Finding),
      bm_pen (aggregate (engine_macro_class kb_rules) findings).2 "Style" +
          bm_pen (aggregate (engine_macro_class kb_rules) findings).2 "Punctuation" ≤ cap →
      sum_bm (calculate_score cap kb_rules findings).by_macro_map =
        (calculate_score cap kb_rules findings).total_penalty) ∧
    (∀ findings : List Finding,
      bm_pen (aggregate (fun f => determine_macro_class f.rule_id)
            (live findings)).2 "Style" +
          bm_pen (aggregate (fun f => determine_macro_class f.rule_id)
            (live findings)).2 "Punctuation" ≤ 30 →
      sum_bm (recalculate_score findings).by_macro_map =
        (recalculate_score findings).total_penalty) := by
  constructor
  · intro cap kb_rules findings h
    have h1 := aggregate_fst (engine_macro_class kb_rules) findings
    have h2 := aggregate_sum_bm (engine_macro_class kb_rules) findings
    unfold calculate_score
    rcases hagg : aggregate (engine_macro_class kb_rules) findings with ⟨t, bm⟩
    rw [hagg] at h h1 h2
    simp only at h h1 h2
    simp only [hagg]
    rw [if_neg (by omega)]
    simp [h1, h2]
  · intro findings h
    have h1 := aggregate_fst (fun f => determine_macro_class f.rule_id) (live findings)
    have h2 := aggregate_sum_bm (fun f => determine_macro_class f.rule_id) (live findings)
    unfold recalculate_score
    rcases hagg : aggregate (fun f => determine_macro_class f.rule_id)
      (findings.filter (fun f => !f.dismissed)) with ⟨t, bm⟩
    have hlive : findings.filter (fun f => !f.dismissed) = live findings := rfl
    rw [hlive] at hagg
    rw [hagg] at h h1 h2
    simp only at h h1 h2
    simp only [hagg]
    rw [if_neg (by omega)]
    simp [h1, h2]

/-- C1 witness: for one Style finding of penalty 10 the cap does not fire
and the breakdown sum equals the total. -/
theorem C1_witness :
    (bm_pen (aggregate (engine_macro_class []) [c1w_finding]).2 "Style" +
        bm_pen (aggregate (engine_macro_class []) [c1w_finding]).2 "Punctuation" ≤ 30) ∧
      sum_bm (calculate_score 30 [] [c1w_finding]).by_macro_map =
        (calculate_score 30 [] [c1w_finding]).total_penalty :=
  ⟨by decide, C1_amended.1 30 [] [c1w_finding] (by decide)⟩

/-- A Style finding of penalty 20 (Scenario C). -/
def c2_f1 : Finding :=
  { segment_id := "s1", rule_id := "S1", severity := .major, penalty := 20,
    justification := "j", citation := cit0, deterministic := false }

/-- A Punctuation finding of penalty 15 (Scenario C). -/
def c2_f2 : Finding :=
  { segment_id := "s2", rule_id := "PUNCT_01", severity := .major, penalty := 15,
    justification := "j", citation := cit0, deterministic := false }

/-- C2: when the raw Style penalty plus the raw Punctuation penalty exceeds
the cap, `_calculate_score` reduces the total by exactly the excess and
clamps each of the two breakdown entries to at most `cap // 2`;
`final_score = max(0, 100 - total_penalty)`; and in general the
Style+Punctuation contribution to the total is `min(style+punct, cap)`, so
it never exceeds the cap. -/
theorem C2_cap_policy (cap : Int) (kb_rules : List Rule) (findings : List Finding)
    (hcap : 0 ≤ cap) :
    (bm_pen (aggregate (engine_macro_class kb_rules) findings).2 "Style" +
        bm_pen (aggregate (engine_macro_class kb_rules) findings).2 "Punctuation" > cap →
      (calculate_score cap kb_rules findings).total_penalty =
          (aggregate (engine_macro_class kb_rules) findings).1 -
            (bm_pen (aggregate (engine_macro_class kb_rules) findings).2 "Style" +
              bm_pen (aggregate (engine_macro_class kb_rules) findings).2 "Punctuation" - cap) ∧
        bm_pen (calculate_score cap kb_rules findings).by_macro_map "Style" ≤ Int.fdiv cap 2 ∧
        bm_pen (calculate_score cap kb_rules findings).by_macro_map "Punctuation" ≤
          Int.fdiv cap 2) ∧
    (calculate_score cap kb_rules findings).final_score =
      max 0 (100 - (calculate_score cap kb_rules findings).total_penalty) ∧
    (calculate_score cap kb_rules findings).total_penalty =
      ((aggregate (engine_macro_class kb_rules) findings).1 -
          (bm_pen (aggregate (engine_macro_class kb_rules) findings).2 "Style" +
            bm_pen (aggregate (engine_macro_class kb_rules) findings).2 "Punctuation")) +
        min (bm_pen (aggregate (engine_macro_class kb_rules) findings).2 "Style" +
            bm_pen (aggregate (engine_macro_class kb_rules) findings).2 "Punctuation") cap := by
  have hm : (0 : Int) ≤ Int.fdiv cap 2 := Int.fdiv_nonneg hcap (by norm_num)
  have hsp : ("Style" : String) ≠ "Punctuation" := by decide
  have hps : ("Punctuation" : String) ≠ "Style" := by decide
  unfold calculate_score
  rcases hagg : aggregate (engine_macro_class kb_rules) findings with ⟨t, bm⟩
  simp only [hagg]
  by_cases hgt : bm_pen bm "Style" + bm_pen bm "Punctuation" > cap
  · rw [if_pos hgt]
    refine ⟨fun _ => ⟨rfl, ?_, ?_⟩, rfl, ?_⟩
    · rw [bm_pen_clamp_other _ _ _ _ hps, bm_pen_clamp_self _ _ _ hm]
      exact min_le_right _ _
    · rw [bm_pen_clamp_self _ _ _ hm]
      exact min_le_right _ _
    · simp only
      rw [min_def]
      split_ifs <;> omega
  · rw [if_neg hgt]
    refine ⟨fun hc => absurd hc hgt, rfl, ?_⟩
    simp only
    rw [min_def]
    split_ifs <;> omega

/-- C2 witness: Scenario C (Style 20, Punctuation 15, cap 30): the cap
fires, the total drops to 30 and both breakdown entries are at most 15. -/
theorem C2_witness :
    ((0 : Int) ≤ 30 ∧
      bm_pen (aggregate (engine_macro_class []) [c2_f1, c2_f2]).2 "Style" +
        bm_pen (aggregate (engine_macro_class []) [c2_f1, c2_f2]).2 "Punctuation" > 30) ∧
    ((calculate_score 30 [] [c2_f1, c2_f2]).total_penalty =
        (aggregate (engine_macro_class []) [c2_f1, c2_f2]).1 -
          (bm_pen (aggregate (engine_macro_class []) [c2_f1, c2_f2]).2 "Style" +
            bm_pen (aggregate (engine_macro_class []) [c2_f1, c2_f2]).2 "Punctuation" - 30) ∧
      bm_pen (calculate_score 30 [] [c2_f1, c2_f2]).by_macro_map "Style" ≤ Int.fdiv 30 2 ∧
      bm_pen (calculate_score 30 [] [c2_f1, c2_f2]).by_macro_map "Punctuation" ≤
        Int.fdiv 30 2) ∧
    (calculate_score 30 [] [c2_f1, c2_f2]).final_score =
      max 0 (100 - (calculate_score 30 [] [c2_f1, c2_f2]).total_penalty) :=
  ⟨⟨by norm_num, by decide⟩,
    (C2_cap_policy 30 [] [c2_f1, c2_f2] (by norm_num)).1 (by decide),
    (C2_cap_policy 30 [] [c2_f1, c2_f2] (by norm_num)).2.1⟩

/-- A synthetic quality finding (Critical grammar error, penalty 15×3). -/
def c8_finding : Finding :=
  { segment_id := "seg_c8", rule_id := "QUALITY_GRAMMAR_ERROR", severity := .critical,
    penalty := 45, justification := "j", citation := cit0, deterministic := false }

/-- C8: the Override Processor's score recomputation implements the same
scoring function as the Evaluation Orchestrator's aggregator.  FALSE: the
review-side `_determine_macro_class` has no Rule Store lookup and no
`QUALITY_*` table, so a `QUALITY_GRAMMAR_ERROR` finding of penalty 45 is
Accuracy for the engine (final 55) but Style for the review service, where
the cap fires (final 70). -/
theorem C8_counterexample :
    (calculate_score 30 [] [c8_finding]).final_score ≠
      (recalculate_score [c8_finding]).final_score := by
  decide

/-- C8 (amended): the two scoring passes agree (same final score, total and
breakdown) on finding lists with no dismissed findings in which every
finding's macro class resolves identically on both sides — in particular
whenever no rule id matches a Rule Store entry and none is a `QUALITY_*`
synthetic id. -/
theorem C8_amended (kb_rules : List Rule) (findings : List Finding)
    (hnd : ∀ f ∈ findings, f.dismissed = false)
    (hcls : ∀ f ∈ findings, engine_macro_class kb_rules f = determine_macro_class f.rule_id) :
    calculate_score 30 kb_rules findings = recalculate_score findings := by
  have hfilter : findings.filter (fun f => !f.dismissed) = findings := by
    rw [List.filter_eq_self]
    intro f hf
    simp [hnd f hf]
  have hagg : aggregate (engine_macro_class kb_rules) findings =
      aggregate (fun f => determine_macro_class f.rule_id) findings :=
    aggregate_congr _ _ _ hcls
  unfold calculate_score recalculate_score
  rw [hfilter, hagg]
  have h15 : Int.fdiv 30 2 = 15 := by decide
  rw [h15]

/-- C8 witness: a finding with a keyword-free rule id absent from the Rule
Store scores identically through both passes. -/
theorem C8_witness :
    (∀ f ∈ [c1w_finding], f.dismissed = false) ∧
    (∀ f ∈ [c1w_finding], engine_macro_class [] f = determine_macro_class f.rule_id) ∧
    calculate_score 30 [] [c1w_finding] = recalculate_score [c1w_finding] :=
  ⟨by decide, by decide, C8_amended [] [c1w_finding] (by decide) (by decide)⟩

/-- A Rule Store rule classified Style whose id contains the `ACCURACY`
keyword (so the review-side fallback classifies its findings differently). -/
def c9_rule : Rule :=
  { rule_id := "ACCURACY_TONE", macro_class := .style, micro_class := "tone",
    rule_text := "Maintain a neutral tone", default_severity := .major,
    default_weight := 20, citation := cit0 }

/-- A finding against `c9_rule` with penalty 40. -/
def c9_fA : Finding :=
  { segment_id := "seg_A", rule_id := "ACCURACY_TONE", severity := .major,
    penalty := 40, justification := "j", citation := cit0, deterministic := false }

/-- A small keyword-free finding with penalty 5. -/
def c9_fB : Finding :=
  { segment_id := "seg_B", rule_id := "B1", severity := .minor, penalty := 5,
    justification := "j", citation := cit0, deterministic := false }

/-- The persisted record right after evaluation with `c9_rule`'s knowledge
base: `_calculate_score` classifies both findings Style (45 > cap), so the
stored score is 70. -/
def c9_eval : Evaluation :=
  { findings := [c9_fA, c9_fB]
    final_score := (calculate_score 30 [c9_rule] [c9_fA, c9_fB]).final_score
    by_macro_map := (calculate_score 30 [c9_rule] [c9_fA, c9_fB]).by_macro_map }

/-- The dismiss request for the penalty-5 finding. -/
def c9_req : ReviewOverrideRequest :=
  { finding_id := "seg_B", action := .dismiss, reason := "fp", reviewer := "rev" }

/-- C9: dismissing a finding never decreases `final_score` after
recomputation.  FALSE: with the record of `c9_eval` (stored score 70, capped
as Style by the engine's Rule Store lookup), dismissing the penalty-5
finding makes `_recalculate_score` classify the remaining `ACCURACY_TONE`
finding as Accuracy — uncapped — so the score drops from 70 to 60. -/
theorem C9_counterexample :
    ∃ s : Int, (process_override "e" c9_eval c9_req).map
        (fun r => r.2.final_score) = some s ∧
      s < c9_eval.final_score :=
  ⟨60, by decide⟩

/-- C9 (amended): when the stored score equals the Override Processor's own
recomputation over the current findings (as it does after any previous
override) and the dismissed finding carries a nonnegative penalty, a dismiss
override never decreases `final_score`; it increases it by exactly 10 for a
penalty-10 finding when the Style+Punctuation cap is not in play and the
live total penalty is at most 100; and the feedback event carries action
`dismiss` in every case, whether or not the score changed. -/
theorem C9_amended (event_id : String) (ev : Evaluation) (req : ReviewOverrideRequest)
    (i : Nat) (f : Finding)
    (hact : req.action = .dismiss)
    (hloc : find_target req.finding_id ev.findings = some (i, f))
    (hd : f.dismissed = false) (hp : 0 ≤ f.penalty)
    (hpre : ev.final_score = (recalculate_score ev.findings).final_score) :
    ∃ fe ev', process_override event_id ev req = some (fe, ev') ∧
      fe.action = .dismiss ∧
      ev.final_score ≤ ev'.final_score ∧
      (f.penalty = 10 → rec_sp ev.findings ≤ 30 → wsum live_pen ev.findings ≤ 100 →
        ev'.final_score = ev.final_score + 10) := by
  have hget := find_target_get _ _ _ _ hloc
  have happ : apply_action req f = (dismiss_finding f, f.severity.value, "Dismissed") := by
    cases hns : req.new_severity <;> simp [apply_action, hact, dismiss_finding]
  unfold process_override
  rw [hloc]
  simp only [happ]
  refine ⟨_, _, rfl, hact, ?_, ?_⟩
  · rw [hpre]
    exact recalc_dismiss_mono _ _ _ hget hd hp
  · intro h10 hsp htot
    rw [hpre]
    exact recalc_dismiss_exact _ _ _ hget hd h10 hsp htot

/-- A penalty-10 finding for the dismissal witness. -/
def c9w_finding : Finding :=
  { segment_id := "seg_w9", rule_id := "W9", severity := .major, penalty := 10,
    justification := "j", citation := cit0, deterministic := false }

/-- A recomputation-consistent record holding only `c9w_finding`. -/
def c9w_eval : Evaluation :=
  { findings := [c9w_finding]
    final_score := (recalculate_score [c9w_finding]).final_score
    by_macro_map := (recalculate_score [c9w_finding]).by_macro_map }

/-- The dismiss request for `c9w_finding`. -/
def c9w_req : ReviewOverrideRequest :=
  { finding_id := "seg_w9", action := .dismiss, reason := "fp", reviewer := "rev" }

/-- C9 witness: dismissing the penalty-10 finding of a consistent record
raises the score by exactly 10 and appends a dismiss feedback event. -/
theorem C9_witness :
    ∃ fe ev', process_override "e" c9w_eval c9w_req = some (fe, ev') ∧
      fe.action = .dismiss ∧
      c9w_eval.final_score ≤ ev'.final_score ∧
      (c9w_finding.penalty = 10 → rec_sp c9w_eval.findings ≤ 30 →
        wsum live_pen c9w_eval.findings ≤ 100 →
        ev'.final_score = c9w_eval.final_score + 10) :=
  C9_amended "e" c9w_eval c9w_req 0 c9w_finding rfl (by decide) (by decide)
    (by decide) rfl

/-- C7: a `change_severity` override sets the located finding's penalty to
its current penalty floor-divided by the multiplier of its current severity,
times the multiplier of the new severity, with the table
Minor/Major/Critical = 1/2/3 (`mult_get` on the severity strings). -/
theorem C7_change_severity (event_id : String) (ev : Evaluation)
    (req : ReviewOverrideRequest) (i : Nat) (f : Finding) (ns : Severity)
    (hact : req.action = .change_severity) (hns : req.new_severity = some ns)
    (hloc : find_target req.finding_id ev.findings = some (i, f)) :
    ∃ fe ev', process_override event_id ev req = some (fe, ev') ∧
      ev'.findings[i]? = some (change_severity_update f ns) := by
  have hget := find_target_get _ _ _ _ hloc
  have happ : apply_action req f =
      (change_severity_update f ns, f.severity.value, ns.value) := by
    simp [apply_action, hact, hns]
  unfold process_override
  rw [hloc]
  simp only [happ]
  exact ⟨_, _, rfl, get_set_some _ _ _ _ hget⟩

/-- A Major finding of penalty 4 (base weight 2). -/
def c7_finding : Finding :=
  { segment_id := "seg_c7", rule_id := "R7", severity := .major, penalty := 4,
    justification := "j", citation := cit0, deterministic := false }

/-- The record holding `c7_finding`. -/
def c7_eval : Evaluation :=
  { findings := [c7_finding]
    final_score := (recalculate_score [c7_finding]).final_score
    by_macro_map := (recalculate_score [c7_finding]).by_macro_map }

/-- The change_severity request lowering `c7_finding` to Minor. -/
def c7_req : ReviewOverrideRequest :=
  { finding_id := "seg_c7", action := .change_severity, new_severity := some .minor,
    reason := "overstated", reviewer := "rev" }

/-- C7 witness: lowering a Major penalty-4 finding to Minor recovers base
weight 4 // 2 = 2 and stores penalty 2 × 1 = 2. -/
theorem C7_witness :
    ∃ fe ev', process_override "e" c7_eval c7_req = some (fe, ev') ∧
      ev'.findings[0]? = some (change_severity_update c7_finding .minor) :=
  C7_change_severity "e" c7_eval c7_req 0 c7_finding .minor rfl rfl (by decide)

/-- A punctuation-width rule of parametric default severity and weight. -/
def c4_rule (s : Severity) (w : Int) : Rule :=
  { rule_id := "PUNCT_WIDTH_01", macro_class := .punctuation, micro_class := "width",
    rule_text := "Use full-width punctuation width in Chinese text",
    default_severity := s, default_weight := w, citation := cit0 }

/-- C4: for zh-CN the punctuation-width check emits one Finding per
occurrence of each half-width mark with severity Major and penalty
weight × 2 regardless of the rule's own default severity.  FALSE for the
severity: with a weight-2 punctuation rule whose default severity is Minor,
the single Finding for `你好!` carries penalty 4 but severity Minor — the
check copies `matching_rule.default_severity` and escalates only the
penalty. -/
theorem C4_counterexample :
    ((check_punctuation_width "Hello" "你好!" "zh-CN" "seg_1"
        [c4_rule .minor 2]).map (fun f => (f.severity, f.penalty))) =
      [(Severity.minor, 4)] ∧
    Severity.minor ≠ Severity.major := by
  decide

/-- C4 (amended): one Finding per occurrence of the half-width mark, span
per occurrence, penalty = rule weight × 2 (the Major multiplier), but the
Finding's severity is the matched rule's own default severity; Scenario A
(`你好!`, one punctuation rule of weight 2 and default severity Major) hence
yields exactly one Major Finding of penalty 4. -/
theorem C4_amended (sid : String) (s : Severity) (w : Int) :
    check_punctuation_width "Hello" "你好!" "zh-CN" sid [c4_rule s w] =
      [punct_finding sid (c4_rule s w) '!' '！' (2, 3)] ∧
    check_punctuation_width "Hello" "你好!真!" "zh-CN" sid [c4_rule s w] =
      [punct_finding sid (c4_rule s w) '!' '！' (2, 3),
        punct_finding sid (c4_rule s w) '!' '！' (4, 5)] ∧
    (punct_finding sid (c4_rule s w) '!' '！' (2, 3)).severity = s ∧
    (punct_finding sid (c4_rule s w) '!' '！' (2, 3)).penalty = w * 2 :=
  ⟨rfl, rfl, rfl, rfl⟩

/-- A rule whose text mentions placeholders (the first such rule is the one
every placeholder discrepancy is tied to). -/
def c5_rule : Rule :=
  { rule_id := "MECH_PLACEHOLDER_01", macro_class := .mechanics, micro_class := "ph",
    rule_text := "Preserve placeholders and tags exactly",
    default_severity := .major, default_weight := 3, citation := cit0 }

/-- C5: the placeholder check extracts placeholders from source and target
independently and, for every placeholder present only in the source, emits a
Major Finding (penalty weight × 2) tied to the first rule whose text
mentions placeholders or tags; Scenario B (`Hello {name}!` vs `你好！`)
yields exactly the Major Finding for the missing `{name}`. -/
theorem C5_placeholders :
    (∀ (source_text target_text locale segment_id : String) (rules : List Rule)
        (r : Rule) (rest : List Rule) (ph : String),
      placeholder_rules_of rules = r :: rest →
      ph ∈ extract_placeholders source_text →
      ph ∉ extract_placeholders target_text →
      missing_placeholder_finding segment_id r ph ∈
        check_placeholders source_text target_text locale segment_id rules) ∧
    check_placeholders "Hello {name}!" "你好！" "zh-CN" "seg_1" [c5_rule] =
      [missing_placeholder_finding "seg_1" c5_rule "{name}"] := by
  constructor
  · intro src tgt loc sid rules r rest ph hr hs ht
    unfold check_placeholders
    rw [hr]
    apply List.mem_append_left
    apply List.mem_map_of_mem
    rw [List.mem_filter]
    refine ⟨hs, ?_⟩
    simpa using ht
  · decide

/-- C5 witness: Scenario B through the general statement. -/
theorem C5_witness :
    placeholder_rules_of [c5_rule] = c5_rule :: [] ∧
    "{name}" ∈ extract_placeholders "Hello {name}!" ∧
    "{name}" ∉ extract_placeholders "你好！" ∧
    missing_placeholder_finding "seg_1" c5_rule "{name}" ∈
      check_placeholders "Hello {name}!" "你好！" "zh-CN" "seg_1" [c5_rule] :=
  ⟨by decide, by decide, by decide,
    C5_placeholders.1 "Hello {name}!" "你好！" "zh-CN" "seg_1" [c5_rule] c5_rule []
      "{name}" (by decide) (by decide) (by decide)⟩

/-! ### Hash-independence of the mechanical checks (C3) -/

/-- Erase the segment id — the only field of a deterministic Finding that
depends on the interpreter's string-hash salt. -/
def erase_sid (f : Finding) : Finding :=
  { f with segment_id := "" }

theorem erase_punct_finding (sid : String) (r : Rule) (a b : Char) (p : Nat × Nat) :
    erase_sid (punct_finding sid r a b p) = punct_finding "" r a b p := rfl

theorem erase_missing_finding (sid : String) (r : Rule) (ph : String) :
    erase_sid (missing_placeholder_finding sid r ph) =
      missing_placeholder_finding "" r ph := rfl

theorem erase_extra_finding (sid : String) (r : Rule) (ph : String) :
    erase_sid (extra_placeholder_finding sid r ph) =
      extra_placeholder_finding "" r ph := rfl

theorem erase_date_finding (sid : String) (r : Rule) (d : String) (sp : Nat × Nat) :
    erase_sid (date_finding sid r d sp) = date_finding "" r d sp := rfl

theorem erase_lb_finding (sid : String) (r : Rule) (sb tb : Int) :
    erase_sid (line_break_finding sid r sb tb) = line_break_finding "" r sb tb := rfl

theorem erase_regex_finding (sid : String) (r : Rule) (m : RegexMatch) :
    erase_sid (regex_finding sid r m) = regex_finding "" r m := rfl

theorem check_punct_erase (src tgt loc : String) (sid₁ sid₂ : String)
    (rules : List Rule) :
    (check_punctuation_width src tgt loc sid₁ rules).map erase_sid =
      (check_punctuation_width src tgt loc sid₂ rules).map erase_sid := by
  unfold check_punctuation_width
  split_ifs
  · rfl
  · rw [List.map_flatten, List.map_flatten, List.map_map, List.map_map]
    congr 1
    apply List.map_congr_left
    intro e _
    simp only [Function.comp_apply]
    split_ifs
    · rfl
    · split
      · rw [List.map_map, List.map_map]
        apply List.map_congr_left
        intro p _
        simp [Function.comp_apply, erase_punct_finding]
      · rfl

theorem check_placeholders_erase (src tgt loc : String) (sid₁ sid₂ : String)
    (rules : List Rule) :
    (check_placeholders src tgt loc sid₁ rules).map erase_sid =
      (check_placeholders src tgt loc sid₂ rules).map erase_sid := by
  unfold check_placeholders
  split
  · rfl
  · rw [List.map_append, List.map_append, List.map_map, List.map_map,
      List.map_map, List.map_map]
    congr 1

theorem check_date_erase (src tgt loc : String) (sid₁ sid₂ : String)
    (rules : List Rule) :
    (check_date_format src tgt loc sid₁ rules).map erase_sid =
      (check_date_format src tgt loc sid₂ rules).map erase_sid := by
  unfold check_date_format
  split_ifs
  · rfl
  · split
    · rfl
    · rw [List.map_flatten, List.map_flatten, List.map_map, List.map_map]
      congr 1
      apply List.map_congr_left
      intro d _
      simp only [Function.comp_apply]
      split
      · simp [erase_date_finding]
      · rfl

theorem check_lb_erase (src tgt loc : String) (sid₁ sid₂ : String)
    (rules : List Rule) :
    (check_line_breaks src tgt loc sid₁ rules).map erase_sid =
      (check_line_breaks src tgt loc sid₂ rules).map erase_sid := by
  unfold check_line_breaks
  split
  · rfl
  · split_ifs
    · simp [erase_lb_finding]
    · rfl

theorem check_regex_erase (re_engine : RegexEngine) (src tgt loc : String)
    (sid₁ sid₂ : String) (rules : List Rule) :
    (check_regex_rules re_engine src tgt loc sid₁ rules).map erase_sid =
      (check_regex_rules re_engine src tgt loc sid₂ rules).map erase_sid := by
  unfold check_regex_rules
  rw [List.map_flatten, List.map_flatten, List.map_map, List.map_map]
  congr 1
  apply List.map_congr_left
  intro r _
  simp only [Function.comp_apply]
  split
  · rfl
  · split
    · rfl
    · rw [List.map_map, List.map_map]
      apply List.map_congr_left
      intro m _
      simp [Function.comp_apply, erase_regex_finding]

/-- C3: two independent executions of `run_all_checks` on identical inputs
produce identical finding lists — same count, rule ids, spans and segment
identifiers.  The segment-identifier part is FALSE across interpreter
processes: `segment_id = "seg_" + str(hash(target_text))[:8]` uses CPython's
per-process salted string hash.  AMENDED and proved here: for any two hash
functions (two interpreter processes), the outputs agree after erasing
segment ids — in particular same count, same rule ids and same spans; within
one process (one hash function) the function is pure, hence identical. -/
theorem C3_amended (h₁ h₂ : String → Int) (re_engine : RegexEngine)
    (source_text target_text locale : String) (rules : List Rule) :
    (run_all_checks h₁ re_engine source_text target_text locale rules).map erase_sid =
      (run_all_checks h₂ re_engine source_text target_text locale rules).map erase_sid ∧
    (run_all_checks h₁ re_engine source_text target_text locale rules).length =
      (run_all_checks h₂ re_engine source_text target_text locale rules).length ∧
    (run_all_checks h₁ re_engine source_text target_text locale rules).map
        (fun f => f.rule_id) =
      (run_all_checks h₂ re_engine source_text target_text locale rules).map
        (fun f => f.rule_id) ∧
    (run_all_checks h₁ re_engine source_text target_text locale rules).map
        (fun f => (f.span_start, f.span_end)) =
      (run_all_checks h₂ re_engine source_text target_text locale rules).map
        (fun f => (f.span_start, f.span_end)) := by
  have herase : (run_all_checks h₁ re_engine source_text target_text locale rules).map
      erase_sid =
      (run_all_checks h₂ re_engine source_text target_text locale rules).map erase_sid := by
    unfold run_all_checks
    simp only [List.map_append]
    rw [check_punct_erase _ _ _ _ ("seg_" ++ py_take (toString (h₂ target_text)) 8),
      check_placeholders_erase _ _ _ _ ("seg_" ++ py_take (toString (h₂ target_text)) 8),
      check_date_erase _ _ _ _ ("seg_" ++ py_take (toString (h₂ target_text)) 8),
      check_lb_erase _ _ _ _ ("seg_" ++ py_take (toString (h₂ target_text)) 8),
      check_regex_erase _ _ _ _ _ ("seg_" ++ py_take (toString (h₂ target_text)) 8)]
  refine ⟨herase, ?_, ?_, ?_⟩
  · have := congrArg List.length herase
    simpa using this
  · have := congrArg (List.map (fun f => f.rule_id)) herase
    simpa [List.map_map, Function.comp_def, erase_sid] using this
  · have := congrArg (List.map (fun f => (f.span_start, f.span_end))) herase
    simpa [List.map_map, Function.comp_def, erase_sid] using this

/-- A punctuation-width rule triggering one finding on `你好!`. -/
def c3_rule : Rule :=
  { rule_id := "PUNCT_WIDTH_02", macro_class := .punctuation, micro_class := "width",
    rule_text := "Use full-width punctuation width", default_severity := .major,
    default_weight := 2, citation := cit0 }

/-- A regex engine with no patterns to match (no regex-ready rules here). -/
def re_none : RegexEngine := fun _ _ => .ok []

/-- C3 counterexample: two executions whose interpreter hash salts differ
(modelled as the hash functions `fun _ => 0` and `fun _ => 1`) return
different finding lists for the same input — the segment identifiers
diverge (`seg_0` vs `seg_1`), refuting the claim's "same segment
identifiers" across independent executions. -/
theorem C3_counterexample :
    run_all_checks (fun _ => 0) re_none "Hi" "你好!" "zh-CN" [c3_rule] ≠
      run_all_checks (fun _ => 1) re_none "Hi" "你好!" "zh-CN" [c3_rule] := by
  decide

/-! ### The evaluate pipeline under external-call failures (C6, C10) -/

/-- An empty knowledge base payload. -/
def c6_kb : KnowledgeBaseData :=
  { kb_version := "v1", rubric_version := "r1", rules := [] }

/-- C6: with a loaded knowledge base, a failure inside the Quality Assessor
call contributes zero findings and the remaining phases still produce a
ScoreReport.  FALSE for external-service errors: `evaluate` wraps no
try/except around the call, so the exception `chat_completion` raises on a
connection failure propagates and aborts the whole evaluation. -/
theorem C6_counterexample :
    except_ok (evaluate "job1" (fun _ => 0) re_none (some c6_kb)
      (.error "Cannot connect to LM Studio. Is LM Studio running?")
      (fun _ => none) [] (.ok []) (fun _ _ => 0) (.ok "") (fun _ => none) 30
      "Hello" "你好" "zh-CN") = false := by
  decide

/-- C6 (amended): only a malformed response degrades gracefully — when the
knowledge base loads and both assessor calls return content whose JSON parse
fails, each phase contributes zero findings and `evaluate` still returns the
ScoreReport built from the deterministic findings alone; an external-service
error in either call propagates and aborts, as does the knowledge-base
precondition. -/
theorem C6_amended (job_id : String) (pyHash : String → Int) (re_engine : RegexEngine)
    (kbd : KnowledgeBaseData) (qc cc : String)
    (quality_parse : String → Option (List QualityFinding))
    (compliance_parse : String → Option (List LLMFinding))
    (rule_index : List (String × IndexEntry)) (embed_query : Except String (List Rat))
    (cosine : Cosine) (cap : Int) (src tgt loc : String)
    (hq : quality_parse qc = none) (hc : compliance_parse cc = none) :
    evaluate job_id pyHash re_engine (some kbd) (.ok qc) quality_parse rule_index
        embed_query cosine (.ok cc) compliance_parse cap src tgt loc =
      .ok { job_id := job_id
            kb_version := kbd.kb_version
            rubric_version := kbd.rubric_version
            model_prompt_version := model_prompt_version
            final_score := (calculate_score cap kbd.rules
              (run_all_checks pyHash re_engine src tgt loc kbd.rules)).final_score
            findings := run_all_checks pyHash re_engine src tgt loc kbd.rules
            by_macro_map := (calculate_score cap kbd.rules
              (run_all_checks pyHash re_engine src tgt loc kbd.rules)).by_macro_map
            source_text := src
            target_text := tgt
            locale := loc } := by
  unfold evaluate evaluate_translation_quality evaluate_translation
  simp only [bind, Except.bind, hq, hc]
  split <;> simp [pure, Except.pure]

/-- C6 witness: a malformed quality response and a malformed compliance
response leave exactly the deterministic findings in the report. -/
theorem C6_witness :
    ((fun _ : String => (none : Option (List QualityFinding))) "bad" = none) ∧
    evaluate "job2" (fun _ => 0) re_none (some c6_kb) (.ok "bad") (fun _ => none)
        [] (.ok []) (fun _ _ => 0) (.ok "bad2") (fun _ => none) 30
        "Hello" "你好" "zh-CN" =
      .ok { job_id := "job2"
            kb_version := c6_kb.kb_version
            rubric_version := c6_kb.rubric_version
            model_prompt_version := model_prompt_version
            final_score := (calculate_score 30 c6_kb.rules
              (run_all_checks (fun _ => 0) re_none "Hello" "你好" "zh-CN"
                c6_kb.rules)).final_score
            findings := run_all_checks (fun _ => 0) re_none "Hello" "你好" "zh-CN"
              c6_kb.rules
            by_macro_map := (calculate_score 30 c6_kb.rules
              (run_all_checks (fun _ => 0) re_none "Hello" "你好" "zh-CN"
                c6_kb.rules)).by_macro_map
            source_text := "Hello"
            target_text := "你好"
            locale := "zh-CN" } :=
  ⟨rfl, C6_amended "job2" (fun _ => 0) re_none c6_kb "bad" "bad2" (fun _ => none)
    (fun _ => none) [] (.ok []) (fun _ _ => 0) 30 "Hello" "你好" "zh-CN" rfl rfl⟩

theorem hybrid_search_error (rule_index : List (String × IndexEntry)) (e : String)
    (cosine : Cosine) (query_text : String) (top_k : Nat) :
    hybrid_search rule_index (.error e) cosine query_text top_k = [] := by
  unfold hybrid_search
  split_ifs <;> rfl

/-- C10: when the query-embedding call fails during `hybrid_search` (index
present), the function returns an empty list rather than raising; `evaluate`
then proceeds with zero candidate rules, the compliance-assessment phase is
silently skipped (its outcome cannot influence the result), and — with the
quality response parsing — the evaluation still succeeds. -/
theorem C10_embedding_failure :
    (∀ (rule_index : List (String × IndexEntry)) (e : String) (cosine : Cosine)
        (query_text : String) (top_k : Nat),
      rule_index ≠ [] →
      hybrid_search rule_index (.error e) cosine query_text top_k = []) ∧
    (∀ (job_id : String) (pyHash : String → Int) (re_engine : RegexEngine)
        (kbd : KnowledgeBaseData) (qchat : Except String String)
        (quality_parse : String → Option (List QualityFinding))
        (rule_index : List (String × IndexEntry)) (e : String) (cosine : Cosine)
        (cc₁ cc₂ : Except String String) (cp₁ cp₂ : String → Option (List LLMFinding))
        (cap : Int) (src tgt loc : String),
      evaluate job_id pyHash re_engine (some kbd) qchat quality_parse rule_index
          (.error e) cosine cc₁ cp₁ cap src tgt loc =
        evaluate job_id pyHash re_engine (some kbd) qchat quality_parse rule_index
          (.error e) cosine cc₂ cp₂ cap src tgt loc) ∧
    (∀ (job_id : String) (pyHash : String → Int) (re_engine : RegexEngine)
        (kbd : KnowledgeBaseData) (qc : String)
        (quality_parse : String → Option (List QualityFinding))
        (qfs : List QualityFinding)
        (rule_index : List (String × IndexEntry)) (e : String) (cosine : Cosine)
        (cc : Except String String) (cp : String → Option (List LLMFinding))
        (cap : Int) (src tgt loc : String),
      quality_parse qc = some qfs →
      except_ok (evaluate job_id pyHash re_engine (some kbd) (.ok qc) quality_parse
        rule_index (.error e) cosine cc cp cap src tgt loc) = true) := by
  refine ⟨?_, ?_, ?_⟩
  · intro idx e cos qt k hne
    exact hybrid_search_error idx e cos qt k
  · intro job pyHash re_engine kbd qchat qp idx e cos cc₁ cc₂ cp₁ cp₂ cap src tgt loc
    unfold evaluate
    simp only [hybrid_search_error, List.isEmpty_nil, if_true]
  · intro job pyHash re_engine kbd qc qp qfs idx e cos cc cp cap src tgt loc hq
    unfold evaluate evaluate_translation_quality
    simp only [hybrid_search_error, bind, Except.bind, hq, List.isEmpty_nil]
    rfl

/-- A one-entry rule index for the C10 witness. -/
def c10_entry : IndexEntry :=
  { rule := c3_rule, embedding := [1], text := "Use full-width punctuation width" }

/-- C10 witness: with a present one-entry index and a failed embedding call,
`hybrid_search` returns the empty list. -/
theorem C10_witness :
    ([("PUNCT_WIDTH_02", c10_entry)] ≠ ([] : List (String × IndexEntry))) ∧
    hybrid_search [("PUNCT_WIDTH_02", c10_entry)] (.error "embed down")
      (fun _ _ => 0) "q" 20 = [] :=
  ⟨by simp, C10_embedding_failure.1 [("PUNCT_WIDTH_02", c10_entry)] "embed down"
    (fun _ _ => 0) "q" 20 (by simp)⟩

end LocQA
